import Mathlib

/-!
Verification of the client-side behavior layer of a single-page portfolio
site (`src/script.js`). Each module of the script is shallowly embedded:
numeric helpers over `ℚ`, the e-mail regex as a language over `List Char`,
and the DOM-mutating handlers as pure transition functions on explicit
state records.
-/

namespace Portfolio

/-! ## Utilities (`utils` in `script.js`) -/

/-- Model of `utils.getScrollProgress`:
`Math.min(scrollTop / trackLength, 1)`, with
`trackLength = docHeight - winHeight` supplied by the environment. -/
def getScrollProgress (scrollTop trackLength : ℚ) : ℚ :=
  min (scrollTop / trackLength) 1

/-- Spec-side clamp of `x` to `[lo, hi]`. -/
def clamp (x lo hi : ℚ) : ℚ := max lo (min x hi)

/-- Model of `progressBar.update`: the rendered width, as a percentage,
is the scroll progress times 100 (`` `${progress}%` `` with
`progress = utils.getScrollProgress() * 100`). -/
def progressBarWidth (scrollTop trackLength : ℚ) : ℚ :=
  getScrollProgress scrollTop trackLength * 100

/-- Lower branch of `utils.easeInOutCubic` (taken when `t < 0.5`):
`4 * t * t * t`. -/
def easeLower (t : ℚ) : ℚ := 4 * t * t * t

/-- Upper branch of `utils.easeInOutCubic` (taken when `t >= 0.5`):
`(t - 1) * (2 * t - 2) * (2 * t - 2) + 1`. -/
def easeUpper (t : ℚ) : ℚ := (t - 1) * (2 * t - 2) * (2 * t - 2) + 1

/-- Model of `utils.easeInOutCubic`:
`t < 0.5 ? 4*t*t*t : (t-1)*(2*t-2)*(2*t-2)+1`. -/
def easeInOutCubic (t : ℚ) : ℚ :=
  if t < 1/2 then easeLower t else easeUpper t

/-! ## Navigation state (`navigation` in `script.js`) -/

/-- The DOM state touched by the mobile-menu handlers: the `isNavOpen`
flag, the `active` class on `#mobileToggle`, the `active` class on
`#navLinks`, and `document.body.style.overflow`. -/
structure MenuState where
  isNavOpen : Bool
  toggleActive : Bool
  linksActive : Bool
  bodyOverflow : String
deriving DecidableEq, Repr

/-- Model of `navigation.closeMobileNav`: sets `isNavOpen = false`,
removes both `active` classes and clears
`document.body.style.overflow`. -/
def closeMobileNav (_s : MenuState) : MenuState :=
  { isNavOpen := false, toggleActive := false, linksActive := false,
    bodyOverflow := "" }

/-- The `#mobileToggle` click handler in `navigation.setupMobileToggle`:
flips `isNavOpen`, toggles both `active` classes to match, and sets
`body.style.overflow` to `"hidden"` when open, `""` when closed. -/
def toggleClick (s : MenuState) : MenuState :=
  let o := !s.isNavOpen
  { isNavOpen := o, toggleActive := o, linksActive := o,
    bodyOverflow := if o then "hidden" else "" }

/-- The four navigation-related input events wired up by
`navigation.setupMobileToggle` and
`accessibility.setupKeyboardNavigation`, with the environment facts each
handler reads: a nav-link click carries `window.innerWidth <= 768`, an
outside click carries `!navbar.contains(e.target)`. -/
inductive MenuEvent where
  | toggleClick
  | linkClick (isMobileWidth : Bool)
  | outsideClick (outsideNavbar : Bool)
  | escapeKey
deriving DecidableEq, Repr

/-- One navigation event dispatched against the current state, exactly as
the listeners in `script.js` handle it. -/
def menuStep (s : MenuState) : MenuEvent → MenuState
  | .toggleClick => toggleClick s
  | .linkClick isMobileWidth =>
      if isMobileWidth then closeMobileNav s else s
  | .outsideClick outsideNavbar =>
      if s.isNavOpen && outsideNavbar then closeMobileNav s else s
  | .escapeKey =>
      if s.isNavOpen then closeMobileNav s else s

/-- The page-load state: `isNavOpen = false`, no `active` classes, body
overflow unset. -/
def initMenu : MenuState :=
  { isNavOpen := false, toggleActive := false, linksActive := false,
    bodyOverflow := "" }

/-- In a menu state satisfying `MenuSync`, both `active` classes and the
body overflow are in sync with `isNavOpen`. -/
def MenuSync (s : MenuState) : Prop :=
  s.toggleActive = s.isNavOpen ∧ s.linksActive = s.isNavOpen ∧
  s.bodyOverflow = (if s.isNavOpen then "hidden" else "")

/-! ## Reveal animations (`revealAnimations` in `script.js`) -/

/-- Observer state of one `.reveal` element: whether the
`IntersectionObserver` still observes it, and whether it carries the
`show` class. -/
structure RevealState where
  observed : Bool
  shown : Bool
deriving DecidableEq, Repr

/-- One intersection callback delivery for one element, per
`revealAnimations.init`: if the element is still observed and the entry
is intersecting, the `show` class is added and the element is
unobserved; the script never removes the `show` class. Unobserved
elements receive no further callbacks, so their state is untouched. -/
def revealStep (s : RevealState) (isIntersecting : Bool) : RevealState :=
  if s.observed && isIntersecting then { observed := false, shown := true }
  else s

/-! ## Scroll spy (`navigation.setActiveLink` in `script.js`) -/

/-- The scroll-spy state: `currentSection` plus, for each `.nav-link`
element, its `data-section` attribute and whether it carries the
`active` class. -/
structure SpyState where
  current : String
  links : List (String × Bool)
deriving DecidableEq, Repr

/-- Model of `navigation.setActiveLink`: returns early when
`currentSection` already equals `sectionId`; otherwise records the new
section and runs `classList.toggle('active', isActive)` over every
`.nav-link`. The second component counts those `classList.toggle` calls
(DOM class mutations performed by the call). -/
def setActiveLink (st : SpyState) (sectionId : String) : SpyState × Nat :=
  if st.current = sectionId then (st, 0)
  else
    ({ current := sectionId,
       links := st.links.map fun l => (l.1, l.1 == sectionId) },
     st.links.length)

/-- A sequence of `setActiveLink` calls, accumulating the total number
of `classList.toggle` calls they perform. -/
def runSpy (st : SpyState) : List String → SpyState × Nat
  | [] => (st, 0)
  | id :: rest =>
      let r := setActiveLink st id
      let r2 := runSpy r.1 rest
      (r2.1, r.2 + r2.2)

/-- The scroll-spy state at page load: `currentSection` is initialized
to `"home"` (`let currentSection = 'home'` in `script.js`). -/
def initSpy (links : List (String × Bool)) : SpyState :=
  { current := "home", links := links }

/-! ## Contact form (`contactForm` in `script.js`) -/

/-- The character class `\s` of a JavaScript regex (ECMAScript
WhiteSpace together with LineTerminator): tab, line feed, vertical tab,
form feed, carriage return, space, no-break space, ogham space mark, the
`U+2000`–`U+200A` space range, line separator, paragraph separator,
narrow no-break space, medium mathematical space, ideographic space, and
the byte-order mark. `String.prototype.trim` strips the same set. -/
def isJsSpace (c : Char) : Bool :=
  c == '\t' || c == '\n' || c == '\x0b' || c == '\x0c' || c == '\r' ||
  c == ' ' || c == '\u00A0' || c == '\u1680' ||
  ('\u2000' ≤ c && c ≤ '\u200A') ||
  c == '\u2028' || c == '\u2029' || c == '\u202F' || c == '\u205F' ||
  c == '\u3000' || c == '\uFEFF'

/-- The character class `[^\s@]` of the e-mail regex in
`contactForm.isValidEmail`: neither whitespace nor `'@'`. -/
def okChar (c : Char) : Bool := !(isJsSpace c) && !(c == '@')

/-- Model of `String.prototype.trim`: strips `isJsSpace` characters from
both ends. -/
def jsTrim (s : List Char) : List Char :=
  ((s.dropWhile isJsSpace).reverse.dropWhile isJsSpace).reverse

/-- Scanning predicate for the local part of the e-mail address: any
character other than `'@'`. -/
def notAt (c : Char) : Bool := !(c == '@')

/-- Executable model of `contactForm.isValidEmail`, the test of the
anchored regex `^[^\s@]+@[^\s@]+\.[^\s@]+$`: the maximal `'@'`-free
prefix is the nonempty all-`okChar` local part, the character after it
is the unique `'@'`, and the remainder is all-`okChar` and contains a
`'.'` that is neither its first nor its last character. The theorem
`isValidEmail_iff_emailShape` below proves this matcher equivalent to
the regex language `emailShape`. -/
def isValidEmail (s : List Char) : Bool :=
  !(s.takeWhile notAt).isEmpty && (s.takeWhile notAt).all okChar &&
  ((s.dropWhile notAt).drop 1).all okChar &&
  ((((s.dropWhile notAt).drop 1).drop 1).dropLast.any fun c => c == '.')

/-- The language of the regex `^[^\s@]+@[^\s@]+\.[^\s@]+$`, transcribed
clause by clause: a nonempty `[^\s@]` run, a literal `'@'`, a nonempty
`[^\s@]` run, a literal `'.'`, a nonempty `[^\s@]` run, anchored at both
ends. -/
def emailShape (s : List Char) : Prop :=
  ∃ a b c : List Char,
    s = a ++ '@' :: (b ++ '.' :: c) ∧
    a ≠ [] ∧ b ≠ [] ∧ c ≠ [] ∧
    (∀ x ∈ a, okChar x = true) ∧ (∀ x ∈ b, okChar x = true) ∧
    (∀ x ∈ c, okChar x = true)

/-- Status message shown when the name check fails. -/
def nameErrorMessage : String := "Please enter your name."

/-- Status message shown when the e-mail check fails. -/
def emailErrorMessage : String := "Please enter a valid email address."

/-- Status message shown when the message check fails. -/
def messageErrorMessage : String := "Please enter your message."

/-- Model of `contactForm.validateForm`: checks non-empty trimmed name,
then the e-mail regex, then non-empty trimmed message; the first failing
check reports its message (`some msg` models the `showStatus(msg,
'error'); return false` path, `none` models `return true`). -/
def validateForm (name email message : List Char) : Option String :=
  if (jsTrim name).isEmpty then some nameErrorMessage
  else if !(isValidEmail email) then some emailErrorMessage
  else if (jsTrim message).isEmpty then some messageErrorMessage
  else none

/-- A submitted form record: the `name`, `email` and `message` fields. -/
structure FormRecord where
  name : String
  email : String
  message : String
deriving DecidableEq, Repr

/-- The DOM state touched by `contactForm.simulateSubmission`: the
submit button's label and disabled flag, the `#formStatus` text and
class, and the form's field values. -/
structure SubmitUI where
  buttonText : String
  buttonDisabled : Bool
  statusText : String
  statusClass : String
  form : FormRecord
deriving DecidableEq, Repr

/-- The success message interpolated by `contactForm.simulateSubmission`:
`` `Thanks, ${data.name}! I'll get back to you at ${data.email} soon.` ``. -/
def successMessage (name email : String) : String :=
  "Thanks, " ++ name ++ "! I\x27ll get back to you at " ++ email ++
    " soon."

/-- The synchronous first half of `contactForm.simulateSubmission`: the
submit button's label becomes `'Sending...'` and the button is
disabled. -/
def submitLoading (st : SubmitUI) : SubmitUI :=
  { st with buttonText := "Sending...", buttonDisabled := true }

/-- The `setTimeout` callback of `contactForm.simulateSubmission`, run
after the fixed 1500 ms delay: shows the success status (`showStatus`
sets the text and the `form-status success` class), resets the form
fields, restores the button label captured before the submission, and
re-enables the button. -/
def submitDone (d : FormRecord) (originalText : String) (st : SubmitUI) :
    SubmitUI :=
  { st with statusText := successMessage d.name d.email,
            statusClass := "form-status success",
            form := { name := "", email := "", message := "" },
            buttonText := originalText,
            buttonDisabled := false }

/-- Model of `contactForm.simulateSubmission` as the pair of UI states it
produces: the state during the delay and the state after the timeout
fires. `originalText` is captured from the button before the loading
label overwrites it. -/
def simulateSubmission (d : FormRecord) (st : SubmitUI) :
    SubmitUI × SubmitUI :=
  let originalText := st.buttonText
  let loading := submitLoading st
  (loading, submitDone d originalText loading)

end Portfolio

namespace Portfolio

/-! ## Helper lemmas -/

theorem dropWhile_head_false {α : Type} (p : α → Bool) :
    ∀ (l : List α) (d : α) (r : List α),
      l.dropWhile p = d :: r → p d = false := by
  intro l
  induction l with
  | nil => intro d r h; simp [List.dropWhile] at h
  | cons x xs ih =>
      intro d r h
      by_cases hx : p x
      · rw [List.dropWhile_cons_of_pos hx] at h
        exact ih d r h
      · rw [List.dropWhile_cons_of_neg hx] at h
        cases h
        exact Bool.of_not_eq_true hx

theorem takeWhile_dropWhile_split {α : Type} (p : α → Bool) (a : List α)
    (d : α) (t : List α) (ha : ∀ x ∈ a, p x = true) (hd : p d = false) :
    (a ++ d :: t).takeWhile p = a ∧ (a ++ d :: t).dropWhile p = d :: t := by
  induction a with
  | nil =>
      constructor
      · simp [List.takeWhile_cons, hd]
      · simp [List.dropWhile_cons, hd]
  | cons x xs ih =>
      have hx : p x = true := ha x (List.mem_cons_self x xs)
      have hxs : ∀ y ∈ xs, p y = true := fun y hy =>
        ha y (List.mem_cons_of_mem x hy)
      obtain ⟨h1, h2⟩ := ih hxs
      constructor
      · simp only [List.cons_append, List.takeWhile_cons, hx, if_true, h1]
      · simp only [List.cons_append, List.dropWhile_cons, hx, if_true, h2]

theorem okChar_notAt {c : Char} (h : okChar c = true) : notAt c = true := by
  unfold okChar at h
  unfold notAt
  exact (Bool.and_eq_true _ _ |>.mp h).2

theorem isValidEmail_iff_emailShape (s : List Char) :
    isValidEmail s = true ↔ emailShape s := by
  constructor
  · intro h
    unfold isValidEmail at h
    simp only [Bool.and_eq_true] at h
    obtain ⟨⟨⟨hne, hall_a⟩, hall_r⟩, hany⟩ := h
    cases hdw : s.dropWhile notAt with
    | nil =>
        rw [hdw] at hany
        simp at hany
    | cons d rest =>
        rw [hdw] at hall_r hany
        simp only [List.drop_succ_cons, List.drop_zero] at hall_r hany
        have hd : notAt d = false := dropWhile_head_false notAt s d rest hdw
        have hdat : d = '@' := by
          unfold notAt at hd
          simpa using hd
        have hsplit : s = s.takeWhile notAt ++ d :: rest := by
          conv_lhs => rw [← List.takeWhile_append_dropWhile notAt s]
          rw [hdw]
        cases rest with
        | nil => simp at hany
        | cons r0 rtail =>
            simp only [List.drop_succ_cons, List.drop_zero] at hany
            obtain ⟨dot, hdotmem, hdoteq⟩ := List.any_eq_true.mp hany
            have hdot : dot = '.' := by simpa using hdoteq
            subst hdot
            have hrne : rtail ≠ [] := by
              intro hnil
              rw [hnil] at hdotmem
              simp at hdotmem
            obtain ⟨u, v, huv⟩ := List.append_of_mem hdotmem
            have hrt : rtail = (u ++ '.' :: v) ++ [rtail.getLast hrne] := by
              conv_lhs => rw [← List.dropLast_append_getLast hrne]
              rw [huv]
            have hall_r' : ∀ x ∈ r0 :: rtail, okChar x = true :=
              List.all_eq_true.mp hall_r
            refine ⟨s.takeWhile notAt, r0 :: u,
              v ++ [rtail.getLast hrne], ?_, ?_, ?_, ?_, ?_, ?_, ?_⟩
            · conv_lhs => rw [hsplit]
              rw [hdat]
              conv_lhs => rw [hrt]
              simp [List.append_assoc]
            · intro hnil
              rw [hnil] at hne
              simp at hne
            · simp
            · simp
            · exact List.all_eq_true.mp hall_a
            · intro x hx
              apply hall_r'
              rcases List.mem_cons.mp hx with rfl | hxu
              · exact List.mem_cons_self _ _
              · refine List.mem_cons_of_mem _ ?_
                rw [hrt]
                exact List.mem_append_left _ (List.mem_append_left _ hxu)
            · intro x hx
              apply hall_r'
              refine List.mem_cons_of_mem _ ?_
              rw [hrt]
              rcases List.mem_append.mp hx with hxv | hxz
              · exact List.mem_append_left _
                  (List.mem_append_right _ (List.mem_cons_of_mem _ hxv))
              · exact List.mem_append_right _ hxz
  · rintro ⟨a, b, c, hs, ha, hb, hc, hka, hkb, hkc⟩
    subst hs
    have hpa : ∀ x ∈ a, notAt x = true := fun x hx => okChar_notAt (hka x hx)
    have hpat : notAt '@' = false := by unfold notAt; simp
    obtain ⟨htw, hdw⟩ :=
      takeWhile_dropWhile_split notAt a '@' (b ++ '.' :: c) hpa hpat
    unfold isValidEmail
    rw [htw, hdw]
    simp only [List.drop_succ_cons, List.drop_zero, Bool.and_eq_true]
    refine ⟨⟨⟨?_, ?_⟩, ?_⟩, ?_⟩
    · cases a with
      | nil => exact absurd rfl ha
      | cons x xs => simp
    · exact List.all_eq_true.mpr hka
    · refine List.all_eq_true.mpr ?_
      intro x hx
      rcases List.mem_append.mp hx with hxb | hxdc
      · exact hkb x hxb
      · rcases List.mem_cons.mp hxdc with rfl | hxc
        · decide
        · exact hkc x hxc
    · cases b with
      | nil => exact absurd rfl hb
      | cons b0 bt =>
          simp only [List.cons_append, List.drop_succ_cons, List.drop_zero]
          have hcs : '.' :: c = ('.' :: c.dropLast) ++ [c.getLast hc] := by
            conv_lhs => rw [← List.dropLast_append_getLast hc]
            simp
          rw [hcs, ← List.append_assoc, List.dropLast_concat]
          refine List.any_eq_true.mpr ⟨'.', ?_, by simp⟩
          exact List.mem_append_right _ (List.mem_cons_self _ _)

end Portfolio

namespace Portfolio

/-! ## Claim theorems -/

/-- Claim C1: for every scroll offset `s` in `[0, maxScroll]` (with a
positive scroll track), the computed scroll progress equals
`clamp (s / maxScroll) 0 1`; it is `0` at `s = 0`, `1` at
`s = maxScroll`, never lies outside `[0, 1]`, and `progressBar.update`
renders it as `progress * 100` percent. -/
theorem scroll_progress_is_clamped (s maxScroll : ℚ)
    (hpos : 0 < maxScroll) (h0 : 0 ≤ s) (h1 : s ≤ maxScroll) :
    getScrollProgress s maxScroll = clamp (s / maxScroll) 0 1 ∧
    getScrollProgress 0 maxScroll = 0 ∧
    getScrollProgress maxScroll maxScroll = 1 ∧
    0 ≤ getScrollProgress s maxScroll ∧
    getScrollProgress s maxScroll ≤ 1 ∧
    progressBarWidth s maxScroll = getScrollProgress s maxScroll * 100 := by
  have hdiv0 : 0 ≤ s / maxScroll := div_nonneg h0 (le_of_lt hpos)
  have hdiv1 : s / maxScroll ≤ 1 := (div_le_one hpos).mpr h1
  refine ⟨?_, ?_, ?_, ?_, ?_, rfl⟩
  · unfold getScrollProgress clamp
    rw [max_eq_right]
    exact le_min hdiv0 zero_le_one
  · unfold getScrollProgress
    rw [zero_div]
    exact min_eq_left zero_le_one
  · unfold getScrollProgress
    rw [div_self (ne_of_gt hpos)]
    exact min_self 1
  · unfold getScrollProgress
    exact le_min hdiv0 zero_le_one
  · exact min_le_right _ _

/-- Witness for C1 at `s = 1`, `maxScroll = 2`. -/
theorem scroll_progress_is_clamped_witness :
    getScrollProgress 1 2 = clamp (1 / 2) 0 1 ∧
    getScrollProgress 0 2 = 0 ∧
    getScrollProgress 2 2 = 1 ∧
    0 ≤ getScrollProgress 1 2 ∧
    getScrollProgress 1 2 ≤ 1 ∧
    progressBarWidth 1 2 = getScrollProgress 1 2 * 100 :=
  scroll_progress_is_clamped 1 2 (by norm_num) (by norm_num) (by norm_num)

/-- Claim C9: `easeInOutCubic 0 = 0`, `easeInOutCubic 1 = 1`, the two
piecewise branches agree at `t = 1/2` (both give `1/2`, so the function
is continuous there), and on `[0, 1]` the value stays in `[0, 1]`. -/
theorem easeInOutCubic_endpoints_and_bounds :
    easeInOutCubic 0 = 0 ∧
    easeInOutCubic 1 = 1 ∧
    easeLower (1/2) = 1/2 ∧
    easeUpper (1/2) = 1/2 ∧
    easeInOutCubic (1/2) = 1/2 ∧
    ∀ t : ℚ, 0 ≤ t → t ≤ 1 →
      0 ≤ easeInOutCubic t ∧ easeInOutCubic t ≤ 1 := by
  refine ⟨?_, ?_, ?_, ?_, ?_, ?_⟩
  · unfold easeInOutCubic easeLower; norm_num
  · unfold easeInOutCubic easeUpper; norm_num
  · unfold easeLower; norm_num
  · unfold easeUpper; norm_num
  · unfold easeInOutCubic easeUpper; norm_num
  · intro t ht0 ht1
    unfold easeInOutCubic easeLower easeUpper
    by_cases h : t < 1/2
    · rw [if_pos h]
      constructor
      · positivity
      · nlinarith [mul_nonneg ht0 ht0, sq_nonneg t]
    · rw [if_neg h]
      push_neg at h
      constructor
      · nlinarith [sq_nonneg (t - 1), sq_nonneg (2*t - 2)]
      · nlinarith [sq_nonneg (t - 1), sq_nonneg (2*t - 2)]

/-- Witness for C9 at `t = 1/4`. -/
theorem easeInOutCubic_endpoints_and_bounds_witness :
    easeInOutCubic 0 = 0 ∧ easeInOutCubic 1 = 1 ∧
    (0 ≤ easeInOutCubic (1/4) ∧ easeInOutCubic (1/4) ≤ 1) :=
  have h := easeInOutCubic_endpoints_and_bounds
  ⟨h.1, h.2.1, h.2.2.2.2.2 (1/4) (by norm_num) (by norm_num)⟩

theorem menuStep_sync (s : MenuState) (e : MenuEvent) (h : MenuSync s) :
    MenuSync (menuStep s e) := by
  obtain ⟨h1, h2, h3⟩ := h
  cases e with
  | toggleClick =>
      refine ⟨rfl, rfl, rfl⟩
  | linkClick m =>
      cases m with
      | true => exact ⟨rfl, rfl, rfl⟩
      | false => exact ⟨h1, h2, h3⟩
  | outsideClick o =>
      by_cases ho : s.isNavOpen && o
      · simp only [menuStep, ho, if_true]
        exact ⟨rfl, rfl, rfl⟩
      · simp only [menuStep, ho, if_false]
        exact ⟨h1, h2, h3⟩
  | escapeKey =>
      by_cases ho : s.isNavOpen
      · simp only [menuStep, ho, if_true]
        exact ⟨rfl, rfl, rfl⟩
      · simp only [menuStep, ho, if_false]
        exact ⟨h1, h2, h3⟩

theorem menuRun_sync_of (evs : List MenuEvent) :
    ∀ s : MenuState, MenuSync s → MenuSync (List.foldl menuStep s evs) := by
  induction evs with
  | nil => intro s hs; exact hs
  | cons e rest ih => intro s hs; exact ih _ (menuStep_sync s e hs)

theorem menuRun_sync (evs : List MenuEvent) :
    MenuSync (List.foldl menuStep initMenu evs) :=
  menuRun_sync_of evs initMenu ⟨rfl, rfl, rfl⟩

/-- Claim C6: starting from any reachable closed-menu state, a
mobile-toggle click (open) followed by `closeMobileNav` returns the
toggle's `active` class, the nav links' `active` class and the body
overflow style to their exact values before the open. -/
theorem menu_open_close_roundtrip (evs : List MenuEvent)
    (hclosed : (List.foldl menuStep initMenu evs).isNavOpen = false) :
    closeMobileNav (toggleClick (List.foldl menuStep initMenu evs)) =
      List.foldl menuStep initMenu evs := by
  obtain ⟨h1, h2, h3⟩ := menuRun_sync evs
  rw [hclosed] at h1 h2 h3
  cases hs : List.foldl menuStep initMenu evs with
  | mk o t l b =>
      rw [hs] at hclosed h1 h2 h3
      simp only at hclosed h1 h2 h3
      subst hclosed h1 h2 h3
      rfl

/-- Witness for C6 with the empty event history. -/
theorem menu_open_close_roundtrip_witness :
    closeMobileNav (toggleClick (List.foldl menuStep initMenu [])) =
      List.foldl menuStep initMenu [] :=
  menu_open_close_roundtrip [] (by decide)

/-- Counterexample to claim C7 as stated: in the open state reached by
one toggle click, a nav-link click on a viewport wider than 768px does
not close the menu (`navigation.setupMobileToggle` only calls
`closeMobileNav` from a link click when `window.innerWidth <= 768`). -/
theorem link_click_wide_viewport_keeps_menu_open :
    (menuStep (menuStep initMenu MenuEvent.toggleClick)
        (MenuEvent.linkClick false)).isNavOpen = true := by
  decide

/-- Claim C7 (amended): whenever the menu is open, a nav-link click on a
mobile-width viewport, a click outside the navbar, and an escape keydown
each close it — `isNavOpen` becomes false and both `active` classes are
removed — and the only event that can take a closed menu to open is the
toggle-button click. -/
theorem open_menu_close_triggers (s : MenuState) (hopen : s.isNavOpen = true) :
    menuStep s (MenuEvent.linkClick true) = closeMobileNav s ∧
    menuStep s (MenuEvent.outsideClick true) = closeMobileNav s ∧
    menuStep s MenuEvent.escapeKey = closeMobileNav s ∧
    (closeMobileNav s).isNavOpen = false ∧
    (closeMobileNav s).toggleActive = false ∧
    (closeMobileNav s).linksActive = false ∧
    ∀ s' : MenuState, ∀ e : MenuEvent, s'.isNavOpen = false →
      (menuStep s' e).isNavOpen = true → e = MenuEvent.toggleClick := by
  refine ⟨rfl, ?_, ?_, rfl, rfl, rfl, ?_⟩
  · simp only [menuStep, hopen, Bool.true_and, if_true]
  · simp only [menuStep, hopen, if_true]
  · intro s' e hclosed hopened
    cases e with
    | toggleClick => rfl
    | linkClick m =>
        cases m with
        | true => simp [menuStep, closeMobileNav] at hopened
        | false => simp [menuStep, hclosed] at hopened
    | outsideClick o =>
        simp [menuStep, hclosed] at hopened
    | escapeKey =>
        simp [menuStep, hclosed] at hopened

/-- Witness for C7 (amended) at the open state reached by one toggle
click. -/
theorem open_menu_close_triggers_witness :
    menuStep (toggleClick initMenu) (MenuEvent.linkClick true) =
      closeMobileNav (toggleClick initMenu) ∧
    menuStep (toggleClick initMenu) (MenuEvent.outsideClick true) =
      closeMobileNav (toggleClick initMenu) ∧
    menuStep (toggleClick initMenu) MenuEvent.escapeKey =
      closeMobileNav (toggleClick initMenu) ∧
    (closeMobileNav (toggleClick initMenu)).isNavOpen = false ∧
    (closeMobileNav (toggleClick initMenu)).toggleActive = false ∧
    (closeMobileNav (toggleClick initMenu)).linksActive = false ∧
    ∀ s' : MenuState, ∀ e : MenuEvent, s'.isNavOpen = false →
      (menuStep s' e).isNavOpen = true → e = MenuEvent.toggleClick :=
  open_menu_close_triggers (toggleClick initMenu) (by decide)

/-- Claim C8: `closeMobileNav` on the canonical closed state (no `active`
classes, overflow unset) leaves the state unchanged, and
`closeMobileNav` composed with itself equals `closeMobileNav` on every
state. -/
theorem closeMobileNav_idempotent (s : MenuState)
    (ho : s.isNavOpen = false) (ht : s.toggleActive = false)
    (hl : s.linksActive = false) (hb : s.bodyOverflow = "") :
    closeMobileNav s = s ∧
    ∀ s' : MenuState,
      closeMobileNav (closeMobileNav s') = closeMobileNav s' := by
  constructor
  · cases s with
    | mk o t l b =>
        simp only at ho ht hl hb
        subst ho ht hl hb
        rfl
  · intro s'
    rfl

/-- Witness for C8 at the page-load state. -/
theorem closeMobileNav_idempotent_witness :
    closeMobileNav initMenu = initMenu ∧
    ∀ s' : MenuState,
      closeMobileNav (closeMobileNav s') = closeMobileNav s' :=
  closeMobileNav_idempotent initMenu (by decide) (by decide) (by decide)
    (by decide)

/-- Claim C4: a still-observed element that crosses the visibility
threshold gains the `show` class and is unobserved, and from then on
every further sequence of visibility events (re-entering or leaving the
viewport) leaves its state — in particular the `show` class — exactly as
it is: the hidden-to-shown transition happens at most once. -/
theorem reveal_transition_is_one_shot (s : RevealState)
    (hobs : s.observed = true) :
    (revealStep s true).shown = true ∧
    (revealStep s true).observed = false ∧
    ∀ evs : List Bool,
      List.foldl revealStep (revealStep s true) evs = revealStep s true := by
  have hstep : revealStep s true = { observed := false, shown := true } := by
    unfold revealStep
    rw [hobs]
    rfl
  refine ⟨by rw [hstep], by rw [hstep], ?_⟩
  intro evs
  rw [hstep]
  induction evs with
  | nil => rfl
  | cons e rest ih =>
      have hfix : revealStep { observed := false, shown := true } e =
          { observed := false, shown := true } := by
        unfold revealStep
        rfl
      rw [List.foldl_cons, hfix, ih]

/-- Witness for C4: a fresh observed, hidden element, followed by a
leave/enter/leave event history. -/
theorem reveal_transition_is_one_shot_witness :
    (revealStep ⟨true, false⟩ true).shown = true ∧
    (revealStep ⟨true, false⟩ true).observed = false ∧
    List.foldl revealStep (revealStep ⟨true, false⟩ true)
        [false, true, false] = revealStep ⟨true, false⟩ true :=
  have h := reveal_transition_is_one_shot ⟨true, false⟩ (by decide)
  ⟨h.1, h.2.1, h.2.2 [false, true, false]⟩

theorem setActiveLink_current_eq_noop (st : SpyState) (sectionId : String)
    (h : st.current = sectionId) : setActiveLink st sectionId = (st, 0) := by
  unfold setActiveLink
  rw [if_pos h]

/-- Claim C5: calling `setActiveLink` twice in a row with the same
section id (starting from a state where that id is not current) mutates
the class lists exactly once — the first call performs one
`classList.toggle` per nav link, and the second call returns without
touching any DOM class and without changing the state. -/
theorem setActiveLink_redundant_call_is_noop (st : SpyState)
    (sectionId : String) (hne : st.current ≠ sectionId) :
    (setActiveLink st sectionId).2 = st.links.length ∧
    setActiveLink (setActiveLink st sectionId).1 sectionId =
      ((setActiveLink st sectionId).1, 0) := by
  have hfst : (setActiveLink st sectionId).1.current = sectionId := by
    unfold setActiveLink
    rw [if_neg hne]
  constructor
  · unfold setActiveLink
    rw [if_neg hne]
  · exact setActiveLink_current_eq_noop _ _ hfst

/-- Witness for C5: two nav links, switching from `home` to `about`. -/
theorem setActiveLink_redundant_call_is_noop_witness :
    (setActiveLink ⟨"home", [("home", false), ("about", false)]⟩ "about").2 =
      (SpyState.links ⟨"home", [("home", false), ("about", false)]⟩).length ∧
    setActiveLink
        (setActiveLink ⟨"home", [("home", false), ("about", false)]⟩
          "about").1 "about" =
      ((setActiveLink ⟨"home", [("home", false), ("about", false)]⟩
          "about").1, 0) :=
  setActiveLink_redundant_call_is_noop
    ⟨"home", [("home", false), ("about", false)]⟩ "about" (by decide)

/-- Claim C10: because `currentSection` starts as `"home"`, any run of
`setActiveLink "home"` calls that happens before a call with a different
section id performs no DOM class mutation at all and leaves every nav
link's class list unchanged. -/
theorem setActiveLink_home_before_other_section_is_noop
    (links : List (String × Bool)) (ids : List String)
    (hall : ∀ id ∈ ids, id = "home") :
    runSpy (initSpy links) ids = (initSpy links, 0) := by
  induction ids with
  | nil => rfl
  | cons id rest ih =>
      have hid : id = "home" := hall id (List.mem_cons_self id rest)
      have hfirst : setActiveLink (initSpy links) id = (initSpy links, 0) := by
        unfold setActiveLink
        rw [if_pos (by rw [hid]; rfl)]
      have hrest : runSpy (initSpy links) rest = (initSpy links, 0) :=
        ih fun i hi => hall i (List.mem_cons_of_mem id hi)
      unfold runSpy
      rw [hfirst]
      simp only
      rw [hrest]
      rfl

/-- Witness for C10: two nav links, three redundant `"home"` updates. -/
theorem setActiveLink_home_before_other_section_is_noop_witness :
    runSpy (initSpy [("home", false), ("about", false)])
        ["home", "home", "home"] =
      (initSpy [("home", false), ("about", false)], 0) :=
  setActiveLink_home_before_other_section_is_noop
    [("home", false), ("about", false)] ["home", "home", "home"]
    (by intro id hid; simp at hid; simp [hid])

/-- Claim C2: `validateForm` checks non-empty name, then valid e-mail,
then non-empty message; the first failing rule wins and reports its
specific message, all three passing yields success, and `isValidEmail`
accepts exactly the language of the regex
`^[^\s@]+@[^\s@]+\.[^\s@]+$` (`emailShape`). -/
theorem validateForm_first_failure_wins :
    (∀ name email message : List Char, (jsTrim name).isEmpty = true →
      validateForm name email message = some nameErrorMessage) ∧
    (∀ name email message : List Char, (jsTrim name).isEmpty = false →
      isValidEmail email = false →
      validateForm name email message = some emailErrorMessage) ∧
    (∀ name email message : List Char, (jsTrim name).isEmpty = false →
      isValidEmail email = true → (jsTrim message).isEmpty = true →
      validateForm name email message = some messageErrorMessage) ∧
    (∀ name email message : List Char, (jsTrim name).isEmpty = false →
      isValidEmail email = true → (jsTrim message).isEmpty = false →
      validateForm name email message = none) ∧
    (∀ email : List Char, isValidEmail email = true ↔ emailShape email) := by
  refine ⟨?_, ?_, ?_, ?_, fun email => isValidEmail_iff_emailShape email⟩
  · intro name email message h
    simp [validateForm, h]
  · intro name email message h1 h2
    simp [validateForm, h1, h2]
  · intro name email message h1 h2 h3
    simp [validateForm, h1, h2, h3]
  · intro name email message h1 h2 h3
    simp [validateForm, h1, h2, h3]

/-- Witness for C2 on the spec's test vectors: empty name with a good
e-mail, then `not-an-email`, then an empty message, then an all-valid
record. -/
theorem validateForm_first_failure_wins_witness :
    validateForm [] "a@b.com".data "hi".data = some nameErrorMessage ∧
    validateForm "A".data "not-an-email".data "hi".data =
      some emailErrorMessage ∧
    validateForm "A".data "a@b.com".data [] = some messageErrorMessage ∧
    validateForm "A".data "a@b.com".data "hi".data = none ∧
    (isValidEmail "a@b.com".data = true ↔ emailShape "a@b.com".data) :=
  have h := validateForm_first_failure_wins
  ⟨h.1 [] "a@b.com".data "hi".data (by decide),
   h.2.1 "A".data "not-an-email".data "hi".data (by decide) (by decide),
   h.2.2.1 "A".data "a@b.com".data [] (by decide) (by decide) (by decide),
   h.2.2.2.1 "A".data "a@b.com".data "hi".data (by decide) (by decide)
     (by decide),
   h.2.2.2.2 "a@b.com".data⟩

/-- Claim C3: for a form record that passes validation,
`simulateSubmission` first disables the submit button and sets its label
to the loading text, and after the fixed delay shows a success status
whose message contains the submitted name and e-mail verbatim, resets
the form fields, and re-enables the button with its original label
restored. -/
theorem simulateSubmission_lifecycle (d : FormRecord) (st : SubmitUI)
    (hvalid : validateForm d.name.data d.email.data d.message.data = none) :
    (simulateSubmission d st).1.buttonDisabled = true ∧
    (simulateSubmission d st).1.buttonText = "Sending..." ∧
    (simulateSubmission d st).2.statusText =
      successMessage d.name d.email ∧
    (simulateSubmission d st).2.statusClass = "form-status success" ∧
    (∃ pre post : String,
      (simulateSubmission d st).2.statusText = pre ++ d.name ++ post) ∧
    (∃ pre post : String,
      (simulateSubmission d st).2.statusText = pre ++ d.email ++ post) ∧
    (simulateSubmission d st).2.form = ⟨"", "", ""⟩ ∧
    (simulateSubmission d st).2.buttonDisabled = false ∧
    (simulateSubmission d st).2.buttonText = st.buttonText := by
  refine ⟨rfl, rfl, rfl, rfl, ?_, ?_, rfl, rfl, rfl⟩
  · refine ⟨"Thanks, ",
      "! I\x27ll get back to you at " ++ d.email ++ " soon.", ?_⟩
    show successMessage d.name d.email = _
    unfold successMessage
    simp [String.append_assoc]
  · exact ⟨"Thanks, " ++ d.name ++ "! I\x27ll get back to you at ",
      " soon.", rfl⟩

/-- Witness for C3 on a valid record over a default submit button. -/
theorem simulateSubmission_lifecycle_witness :
    (simulateSubmission ⟨"A", "a@b.com", "hi"⟩
        ⟨"Send Message", false, "", "form-status",
          ⟨"A", "a@b.com", "hi"⟩⟩).1.buttonDisabled = true ∧
    (simulateSubmission ⟨"A", "a@b.com", "hi"⟩
        ⟨"Send Message", false, "", "form-status",
          ⟨"A", "a@b.com", "hi"⟩⟩).1.buttonText = "Sending..." ∧
    (simulateSubmission ⟨"A", "a@b.com", "hi"⟩
        ⟨"Send Message", false, "", "form-status",
          ⟨"A", "a@b.com", "hi"⟩⟩).2.statusText =
      successMessage "A" "a@b.com" ∧
    (simulateSubmission ⟨"A", "a@b.com", "hi"⟩
        ⟨"Send Message", false, "", "form-status",
          ⟨"A", "a@b.com", "hi"⟩⟩).2.statusClass = "form-status success" ∧
    (∃ pre post : String,
      (simulateSubmission ⟨"A", "a@b.com", "hi"⟩
        ⟨"Send Message", false, "", "form-status",
          ⟨"A", "a@b.com", "hi"⟩⟩).2.statusText =
        pre ++ FormRecord.name ⟨"A", "a@b.com", "hi"⟩ ++ post) ∧
    (∃ pre post : String,
      (simulateSubmission ⟨"A", "a@b.com", "hi"⟩
        ⟨"Send Message", false, "", "form-status",
          ⟨"A", "a@b.com", "hi"⟩⟩).2.statusText =
        pre ++ FormRecord.email ⟨"A", "a@b.com", "hi"⟩ ++ post) ∧
    (simulateSubmission ⟨"A", "a@b.com", "hi"⟩
        ⟨"Send Message", false, "", "form-status",
          ⟨"A", "a@b.com", "hi"⟩⟩).2.form = ⟨"", "", ""⟩ ∧
    (simulateSubmission ⟨"A", "a@b.com", "hi"⟩
        ⟨"Send Message", false, "", "form-status",
          ⟨"A", "a@b.com", "hi"⟩⟩).2.buttonDisabled = false ∧
    (simulateSubmission ⟨"A", "a@b.com", "hi"⟩
        ⟨"Send Message", false, "", "form-status",
          ⟨"A", "a@b.com", "hi"⟩⟩).2.buttonText =
      SubmitUI.buttonText ⟨"Send Message", false, "", "form-status",
        ⟨"A", "a@b.com", "hi"⟩⟩ :=
  simulateSubmission_lifecycle ⟨"A", "a@b.com", "hi"⟩
    ⟨"Send Message", false, "", "form-status", ⟨"A", "a@b.com", "hi"⟩⟩
    (by decide)

end Portfolio
